import Mathlib

/-!
# TianshanOS PKI Server — shallow embedding

A shallow embedding of the certificate-issuance core of
`tools/pki-server` (files `app/ca.py`, `app/database.py`, `app/main.py`),
used to check the natural-language specification against the code.

Modelling conventions:
* Timestamps are `Nat`, measured in days (the code's `timedelta(days=…)`
  granularity); `datetime.now()` / `datetime.utcnow()` become an explicit
  `now` parameter.
* A PEM-encoded CSR string is modelled as `Option Csr`: `none` stands for a
  string `load_pem_x509_csr` rejects, `some csr` for one that parses to `csr`.
* Randomness (`x509.random_serial_number()`, `secrets.token_urlsafe`, EC key
  generation) becomes explicit parameters supplied per call.
* Each database helper of `database.py` is a pure function on a `DB` record;
  every endpoint of `main.py` threads the `DB` explicitly and returns
  `Except ApiError α × DB`, the `DB` component being the state at the moment
  the handler returns or raises (earlier writes are separate committed
  transactions in the code, so they survive a later `HTTPException`).
* `aiosqlite` row ids follow SQLite AUTOINCREMENT via per-table counters.
  The UNIQUE constraint on certificate serial numbers is not modelled:
  serials are 159-bit random values in the code and callers of the model
  pass distinct serials.
* Python truthiness on optional strings (`if req.device_token:` …) is
  `pyStrTruthy`; `x or y` on optional numbers is `pyOrNat`.
-/

namespace PkiServer

/-- IPv4 address, the model of a value of Python's `ipaddress` library. -/
structure IpAddr where
  o1 : Nat
  o2 : Nat
  o3 : Nat
  o4 : Nat
deriving DecidableEq, Repr

/-- Worker for `splitOnChar`: structural recursion over the characters,
accumulating the current field in reverse. -/
def splitOnCharAux (sep : Char) : List Char → List Char → List String
  | [], acc => [String.mk acc.reverse]
  | c :: rest, acc =>
      if c = sep then String.mk acc.reverse :: splitOnCharAux sep rest []
      else splitOnCharAux sep rest (c :: acc)

/-- Model of Python `str.split(sep)` for a one-character separator — the
code only ever splits on `","` and `"."`. Like Python,
`splitOnChar ',' ""` is `[""]`. (A hand-rolled structural definition so
that it evaluates inside the kernel.) -/
def splitOnChar (sep : Char) (s : String) : List String :=
  splitOnCharAux sep s.data []

/-- Decimal value of one digit character. -/
def digitVal (c : Char) : Option Nat :=
  if '0' ≤ c ∧ c ≤ '9' then some (c.toNat - '0'.toNat) else none

/-- Worker for `decNat?`. -/
def decNatAux : List Char → Nat → Option Nat
  | [], acc => some acc
  | c :: rest, acc =>
      match digitVal c with
      | none => none
      | some d => decNatAux rest (acc * 10 + d)

/-- Decimal reading of a non-empty all-digit string (model of `int(s)`). -/
def decNat? (s : String) : Option Nat :=
  if s.data.isEmpty then none else decNatAux s.data 0

/-- One dotted-quad component: decimal digits, value ≤ 255, no leading
zero — the checks `ipaddress.ip_address` performs on IPv4 text. -/
def parseOctet (s : String) : Option Nat :=
  match decNat? s with
  | none => none
  | some n =>
      if n ≤ 255 ∧ (s.data.length = 1 ∨ s.data.head? ≠ some '0') then some n else none

/-- Model of `ipaddress.ip_address` restricted to IPv4 dotted-quad text:
`none` models the `ValueError` raised on malformed input. -/
def parseIp (s : String) : Option IpAddr :=
  match splitOnChar '.' s with
  | [a, b, c, d] =>
      match parseOctet a, parseOctet b, parseOctet c, parseOctet d with
      | some x, some y, some z, some w => some ⟨x, y, z, w⟩
      | _, _, _, _ => none
  | _ => none

/-- Model of `str(ipaddress.ip_address(...))`, the canonical dotted quad. -/
def ipToString (p : IpAddr) : String :=
  Nat.repr p.o1 ++ "." ++ Nat.repr p.o2 ++ "." ++ Nat.repr p.o3 ++ "." ++ Nat.repr p.o4

/-- The X.509 name-attribute OIDs the code manipulates
(`NameOID.COMMON_NAME`, `NameOID.ORGANIZATIONAL_UNIT_NAME`,
`NameOID.EMAIL_ADDRESS`); `other n` covers the rest of a subject. -/
inductive AttrOid
  | commonName
  | organizationalUnit
  | emailAddress
  | other (n : Nat)
deriving DecidableEq, Repr

/-- A SubjectAlternativeName entry: the two variants the code handles
(`x509.IPAddress`, `x509.DNSName`). -/
inductive GeneralName
  | ipName (ip : IpAddr)
  | dnsName (s : String)
deriving DecidableEq, Repr

/-- A parsed certificate signing request (`x509.load_pem_x509_csr` result):
subject attributes in order, the SAN extension when present (entries in
order), the self-signature validity bit and an abstract public-key handle. -/
structure Csr where
  subject : List (AttrOid × String)
  san : Option (List GeneralName)
  signature_valid : Bool
  pubkey : Nat
deriving DecidableEq, Repr

/-- KeyUsage bits the signer sets (only these two vary across cert types;
the other seven are always false in the code). -/
structure KeyUsageBits where
  digital_signature : Bool
  key_encipherment : Bool
deriving DecidableEq, Repr

/-- `sign_csr`'s KeyUsage / ExtendedKeyUsage selection by `cert_type`
(`ca.py` lines 147–193): `server` and the `both` fallback get
digitalSignature+keyEncipherment and {serverAuth, clientAuth};
`client` gets digitalSignature only and {clientAuth}. -/
def keyUsageFor (cert_type : String) : KeyUsageBits × List String :=
  if cert_type = "server" then (⟨true, true⟩, ["serverAuth", "clientAuth"])
  else if cert_type = "client" then (⟨true, false⟩, ["clientAuth"])
  else (⟨true, true⟩, ["serverAuth", "clientAuth"])

/-- An issued X.509 certificate, as built by `CertificateBuilder` in
`ca.py` (BasicConstraints CA=false and the AuthorityKeyIdentifier copy are
constants of the builder chain and are not referenced by any claim, so they
are not carried as fields). -/
structure SignedCert where
  subject : List (AttrOid × String)
  san : List GeneralName
  key_usage : KeyUsageBits
  eku : List String
  serial : Nat
  not_before : Nat
  not_after : Nat
  pubkey : Nat
deriving DecidableEq, Repr

/-- The loaded certificate authority (`CertificateAuthority._load_ca`):
issuer certificate, private-key handle, chain bundle text. -/
structure CA where
  ca_cert : SignedCert
  ca_key : Nat
  ca_chain : String
deriving DecidableEq, Repr

/-- Result of `CertificateAuthority.parse_csr` (`ca.py` lines 46–76). -/
structure CsrInfo where
  common_name : Option String
  san_ips : List String
  san_dns : List String
  signature_valid : Bool
deriving DecidableEq, Repr

/-- First COMMON_NAME attribute of the subject (`ca.py` lines 51–55). -/
def firstCommonName (subject : List (AttrOid × String)) : Option String :=
  (subject.find? (fun p => p.1 = AttrOid.commonName)).map Prod.snd

/-- `CertificateAuthority.parse_csr`: extract CN, the SAN IPs (as
`str(value)`) and SAN DNS names, and report — without enforcing — the
self-signature validity. -/
def parse_csr (csr : Csr) : CsrInfo :=
  { common_name := firstCommonName csr.subject
    san_ips := (csr.san.getD []).filterMap
      (fun n => match n with
        | GeneralName.ipName ip => some (ipToString ip)
        | GeneralName.dnsName _ => none)
    san_dns := (csr.san.getD []).filterMap
      (fun n => match n with
        | GeneralName.ipName _ => none
        | GeneralName.dnsName s => some s)
    signature_valid := csr.signature_valid }

/-- Subject rebuild in `sign_csr` (`ca.py` lines 110–121): drop every
existing OU attribute, then append `device_type` as the OU. -/
def buildSubject (csr : Csr) (device_type : String) : List (AttrOid × String) :=
  (csr.subject.filter (fun p => p.1 ≠ AttrOid.organizationalUnit))
    ++ [(AttrOid.organizationalUnit, device_type)]

/-- SAN assembly in `sign_csr` (`ca.py` lines 123–144): the CSR's SAN
extension entries in order, then each `additional_ips` entry that
`ipaddress.ip_address` accepts (a `ValueError` is swallowed and the entry
dropped), then every `additional_dns` entry. No de-duplication happens. -/
def buildSan (csr : Csr) (additional_ips additional_dns : Option (List String)) :
    List GeneralName :=
  (csr.san.getD [])
    ++ (additional_ips.getD []).filterMap (fun s => (parseIp s).map GeneralName.ipName)
    ++ (additional_dns.getD []).map GeneralName.dnsName

/-- `CertificateAuthority.sign_csr` (`ca.py` lines 78–236). `now` models
`datetime.utcnow()`, `serial` models `x509.random_serial_number()`,
`csr_pem = none` models a PEM string `load_pem_x509_csr` rejects. Fails with
the `ValueError("CSR signature is invalid")` message when the CSR
self-signature is invalid. -/
def sign_csr (now serial : Nat) (csr_pem : Option Csr) (validity_days : Nat)
    (cert_type : String) (device_type : String)
    (additional_ips additional_dns : Option (List String)) :
    Except String SignedCert :=
  match csr_pem with
  | none => Except.error "Unable to load PEM file"
  | some csr =>
      if !csr.signature_valid then Except.error "CSR signature is invalid"
      else
        let ku := keyUsageFor cert_type
        Except.ok
          { subject := buildSubject csr device_type
            san := buildSan csr additional_ips additional_dns
            key_usage := ku.1
            eku := ku.2
            serial := serial
            not_before := now
            not_after := now + validity_days
            pubkey := csr.pubkey }

/-- The PKCS#12 archive produced by
`pkcs12.serialize_key_and_certificates` (`ca.py` lines 347–356):
friendly name, the private key, the end-entity certificate, the extra CA
certificates, and the password of `BestAvailableEncryption`.
`pkcs12_base64` in the code is the Base64 text of exactly this data. -/
structure Pkcs12Archive where
  name : String
  key : Nat
  cert : SignedCert
  cas : List SignedCert
  password : String
deriving DecidableEq, Repr

/-- Return value of `CertificateAuthority.generate_client_cert`
(its 7-tuple, with the archive kept structured). -/
structure ClientCertResult where
  cert_pem : SignedCert
  key_pem : Nat
  serial_number : Nat
  pkcs12 : Pkcs12Archive
  pkcs12_password : String
  not_before : Nat
  not_after : Nat
deriving DecidableEq, Repr

/-- `CertificateAuthority.generate_client_cert` (`ca.py` lines 253–358).
`fresh_key` models the freshly generated P-256 keypair (one handle for the
pair; the certificate's `pubkey` is this handle's public half),
`serial` models `x509.random_serial_number()`, `fresh_password` models the
`secrets.token_urlsafe(12)` value drawn inside this call. -/
def generate_client_cert (ca : CA) (now fresh_key serial : Nat)
    (fresh_password : String) (common_name : String) (validity_days : Nat)
    (email : Option String) (role : String) : ClientCertResult :=
  let subject : List (AttrOid × String) :=
    [(AttrOid.commonName, common_name), (AttrOid.organizationalUnit, role)]
      ++ (match email with
          | some e => [(AttrOid.emailAddress, e)]
          | none => [])
  let cert : SignedCert :=
    { subject := subject
      san := []
      key_usage := ⟨true, false⟩
      eku := ["clientAuth"]
      serial := serial
      not_before := now
      not_after := now + validity_days
      pubkey := fresh_key }
  { cert_pem := cert
    key_pem := fresh_key
    serial_number := serial
    pkcs12 :=
      { name := common_name
        key := fresh_key
        cert := cert
        cas := [ca.ca_cert]
        password := fresh_password }
    pkcs12_password := fresh_password
    not_before := now
    not_after := now + validity_days }

/-! ## Database model (`app/database.py`) -/

/-- `RequestStatus` (`database.py` lines 13–17). Stored as TEXT in the
schema; the four constants are the only values any code path writes. -/
inductive RequestStatus
  | pending
  | approved
  | rejected
  | expired
deriving DecidableEq, Repr

/-- A `csr_requests` row. `csr_pem` keeps the `Option Csr` reading of the
stored PEM text; `san_ips` / `san_dns` are the comma-joined TEXT columns. -/
structure CsrRequest where
  id : Nat
  device_id : String
  device_ip : Option String
  device_token : Option String
  common_name : Option String
  san_ips : Option String
  san_dns : Option String
  csr_pem : Option Csr
  status : RequestStatus
  validity_days : Nat
  cert_type : String
  created_at : Nat
  processed_at : Option Nat
  processed_by : Option String
  reject_reason : Option String
deriving DecidableEq, Repr

/-- A `certificates` row; `cert` carries the parsed content of the
`cert_pem` column, `serial_number` the (hex-rendered in the code) serial. -/
structure CertRecord where
  id : Nat
  request_id : Option Nat
  device_id : String
  common_name : Option String
  serial_number : Nat
  cert : SignedCert
  private_key_pem : Option Nat
  not_before : Nat
  not_after : Nat
  issued_at : Nat
  issued_by : String
  revoked_at : Option Nat
  revoke_reason : Option String
deriving DecidableEq, Repr

/-- A `device_whitelist` row. -/
structure WhitelistEntry where
  id : Nat
  device_token : String
  device_name : Option String
  description : Option String
  auto_approve : Bool
  validity_days : Nat
  created_at : Nat
  last_used_at : Option Nat
deriving DecidableEq, Repr

/-- An `audit_logs` row. -/
structure AuditEntry where
  action : String
  target_type : Option String
  target_id : Option String
  operator : Option String
  details : Option String
  ip_address : Option String
  created_at : Nat
deriving DecidableEq, Repr

/-- The SQLite database: the four tables plus AUTOINCREMENT counters. -/
structure DB where
  requests : List CsrRequest
  certificates : List CertRecord
  whitelist : List WhitelistEntry
  audit_logs : List AuditEntry
  next_request_id : Nat
  next_cert_id : Nat
  next_whitelist_id : Nat
deriving DecidableEq, Repr

/-- The empty, freshly initialised database (`init_db`). -/
def DB.empty : DB :=
  { requests := []
    certificates := []
    whitelist := []
    audit_logs := []
    next_request_id := 1
    next_cert_id := 1
    next_whitelist_id := 1 }

/-- `create_csr_request` (`database.py` lines 115–136): INSERT a pending
row, return the fresh rowid. -/
def create_csr_request (db : DB) (device_id : String) (common_name : Option String)
    (csr_pem : Option Csr) (device_ip device_token san_ips san_dns : Option String)
    (validity_days : Nat) (cert_type : String) (now : Nat) : Nat × DB :=
  let rid := db.next_request_id
  (rid,
    { db with
        requests := db.requests ++
          [{ id := rid
             device_id := device_id
             device_ip := device_ip
             device_token := device_token
             common_name := common_name
             san_ips := san_ips
             san_dns := san_dns
             csr_pem := csr_pem
             status := RequestStatus.pending
             validity_days := validity_days
             cert_type := cert_type
             created_at := now
             processed_at := none
             processed_by := none
             reject_reason := none }]
        next_request_id := rid + 1 })

/-- `get_request_by_id` (`database.py` lines 152–160). -/
def get_request_by_id (db : DB) (request_id : Nat) : Option CsrRequest :=
  db.requests.find? (fun r => r.id = request_id)

/-- `get_pending_requests` (`database.py` lines 139–149); ordering by
`created_at DESC` is modelled by reversing insertion order. -/
def get_pending_requests (db : DB) : List CsrRequest :=
  (db.requests.filter (fun r => r.status = RequestStatus.pending)).reverse

/-- `update_request_status` (`database.py` lines 163–176): overwrite
status, processed_at, processed_by and reject_reason of the row. -/
def update_request_status (db : DB) (request_id : Nat) (status : RequestStatus)
    (processed_by : String) (reject_reason : Option String) (now : Nat) : DB :=
  { db with
      requests := db.requests.map (fun r =>
        if r.id = request_id then
          { r with
              status := status
              processed_at := some now
              processed_by := some processed_by
              reject_reason := reject_reason }
        else r) }

/-- `create_certificate` (`database.py` lines 181–202). -/
def create_certificate (db : DB) (request_id : Option Nat) (device_id : String)
    (common_name : Option String) (serial_number : Nat) (cert : SignedCert)
    (not_before not_after : Nat) (issued_by : String)
    (private_key_pem : Option Nat) (now : Nat) : Nat × DB :=
  let cid := db.next_cert_id
  (cid,
    { db with
        certificates := db.certificates ++
          [{ id := cid
             request_id := request_id
             device_id := device_id
             common_name := common_name
             serial_number := serial_number
             cert := cert
             private_key_pem := private_key_pem
             not_before := not_before
             not_after := not_after
             issued_at := now
             issued_by := issued_by
             revoked_at := none
             revoke_reason := none }]
        next_cert_id := cid + 1 })

/-- `get_certificate_by_id` (`database.py` lines 217–225). -/
def get_certificate_by_id (db : DB) (cert_id : Nat) : Option CertRecord :=
  db.certificates.find? (fun c => c.id = cert_id)

/-- `revoke_certificate` (`database.py` lines 228–236): unconditionally set
revoked_at and revoke_reason on the row. -/
def revoke_certificate (db : DB) (cert_id : Nat) (reason : String) (now : Nat) : DB :=
  { db with
      certificates := db.certificates.map (fun c =>
        if c.id = cert_id then
          { c with revoked_at := some now, revoke_reason := some reason }
        else c) }

/-- `delete_certificate` (`database.py` lines 239–243). -/
def delete_certificate (db : DB) (cert_id : Nat) : DB :=
  { db with certificates := db.certificates.filter (fun c => c.id ≠ cert_id) }

/-- `add_device_to_whitelist` (`database.py` lines 248–263). -/
def add_device_to_whitelist (db : DB) (device_token : String)
    (device_name description : Option String) (auto_approve : Bool)
    (validity_days : Nat) (now : Nat) : Nat × DB :=
  let wid := db.next_whitelist_id
  (wid,
    { db with
        whitelist := db.whitelist ++
          [{ id := wid
             device_token := device_token
             device_name := device_name
             description := description
             auto_approve := auto_approve
             validity_days := validity_days
             created_at := now
             last_used_at := none }]
        next_whitelist_id := wid + 1 })

/-- `get_device_by_token` (`database.py` lines 266–274). -/
def get_device_by_token (db : DB) (token : String) : Option WhitelistEntry :=
  db.whitelist.find? (fun d => d.device_token = token)

/-- `update_device_last_used` (`database.py` lines 286–292). -/
def update_device_last_used (db : DB) (device_token : String) (now : Nat) : DB :=
  { db with
      whitelist := db.whitelist.map (fun d =>
        if d.device_token = device_token then { d with last_used_at := some now } else d) }

/-- `delete_device_from_whitelist` (`database.py` lines 295–299). -/
def delete_device_from_whitelist (db : DB) (device_id : Nat) : DB :=
  { db with whitelist := db.whitelist.filter (fun d => d.id ≠ device_id) }

/-- `add_audit_log` (`database.py` lines 304–319): append one row. -/
def add_audit_log (db : DB) (action : String)
    (target_type target_id operator details ip_address : Option String)
    (now : Nat) : DB :=
  { db with
      audit_logs := db.audit_logs ++
        [{ action := action
           target_type := target_type
           target_id := target_id
           operator := operator
           details := details
           ip_address := ip_address
           created_at := now }] }

/-! ## Endpoint layer (`app/main.py`)

`HTTPException` is mapped onto the spec's error taxonomy by status code and
site: 400 on CSR parse failure = `validationError`, 403 = `authorizationError`,
404 = `notFound`, 400 on an illegal state transition = `conflictError`,
500 around signing = `signingError`. -/

/-- Error taxonomy of the handlers (spec §7), each constructor carrying the
`detail` message of the `HTTPException` it models. -/
inductive ApiError
  | validationError (detail : String)
  | authorizationError (detail : String)
  | notFound (detail : String)
  | conflictError (detail : String)
  | signingError (detail : String)
deriving DecidableEq, Repr

/-- Python truthiness of an optional string (`None` and `""` are falsy). -/
def pyStrTruthy : Option String → Bool
  | none => false
  | some s => !(s = "")

/-- Python `x or d` on an optional integer (`None` and `0` fall through). -/
def pyOrNat : Option Nat → Nat → Nat
  | none, d => d
  | some n, d => if n = 0 then d else n

/-- Python `x or d` on an optional string (`None` and `""` fall through). -/
def pyOrStr : Option String → String → String
  | none, d => d
  | some s, d => if s = "" then d else s

/-- Character-level worker for `pyReplace`; fuel-structured (one unit per
consumed character) so that it evaluates inside the kernel. -/
def pyReplaceAux (pat repl : List Char) : Nat → List Char → List Char
  | _, [] => []
  | 0, l => l
  | Nat.succ fuel, c :: rest =>
      if pat ≠ [] ∧ pat.isPrefixOf (c :: rest) then
        repl ++ pyReplaceAux pat repl fuel (List.drop (pat.length - 1) rest)
      else
        c :: pyReplaceAux pat repl fuel rest

/-- Model of Python `str.replace`: substitute every non-overlapping
occurrence of `pat`, left to right. (The code only calls it with the
non-empty pattern `"Bearer "`; the empty-pattern corner is irrelevant.) -/
def pyReplace (s pat repl : String) : String :=
  String.mk (pyReplaceAux pat.data repl.data s.data.length s.data)

/-- Python `list(set(xs))` on strings. Set iteration order is unspecified
in Python; `List.dedup` (first occurrences kept, in order) is the chosen
representative, and no theorem below depends on the order. -/
def pySet (xs : List String) : List String :=
  xs.dedup

/-- The settings fields the handlers consult (`app/config.py`). -/
structure Settings where
  default_validity_days : Nat
  auto_sign_enabled : Bool
  require_device_token : Bool
  admin_password : String
deriving DecidableEq, Repr

/-- `CSRSubmitRequest` (`app/models.py`): `csr_pem` carries the
`Option Csr` reading of the posted PEM text. -/
structure SubmitReq where
  device_id : String
  csr_pem : Option Csr
  device_token : Option String
  device_ip : Option String
  validity_days : Option Nat
  cert_type : Option String
  suggested_san_ips : Option (List String)
  suggested_san_dns : Option (List String)
deriving DecidableEq, Repr

/-- `CSRSubmitResponse`, with the issued certificate kept structured. -/
structure SubmitResp where
  request_id : Nat
  status : String
  message : String
  certificate : Option SignedCert
  ca_chain : Option String
deriving DecidableEq, Repr

/-- The device-token check of `submit_csr` (`main.py` lines 172–186],
up to but excluding the global auto-sign switch: yields
(auto_approve, validity_days, database after `update_device_last_used`),
or the 403 `HTTPException` of either failure branch. -/
def submitTokenCheck (settings : Settings) (now : Nat) (req : SubmitReq) (db : DB) :
    Except ApiError (Bool × Nat × DB) :=
  let validity0 := pyOrNat req.validity_days settings.default_validity_days
  if pyStrTruthy req.device_token then
    let t := req.device_token.getD ""
    match get_device_by_token db t with
    | some device =>
        let db1 := update_device_last_used db t now
        if device.auto_approve then Except.ok (true, device.validity_days, db1)
        else Except.ok (false, validity0, db1)
    | none =>
        if settings.require_device_token then
          Except.error (ApiError.authorizationError "Device token not in whitelist")
        else Except.ok (false, validity0, db)
  else
    if settings.require_device_token then
      Except.error (ApiError.authorizationError "Device token required")
    else Except.ok (false, validity0, db)

/-- `submit_csr` (`main.py` lines 156–260). `now` is the call's clock,
`serial` the random serial an auto-sign would draw, `client_host` the
value of `request.client.host`. -/
def submit_csr (ca : CA) (settings : Settings) (now serial : Nat)
    (req : SubmitReq) (client_host : String) (db : DB) :
    Except ApiError SubmitResp × DB :=
  match req.csr_pem with
  | none => (Except.error (ApiError.validationError "Invalid CSR"), db)
  | some csr =>
      let csr_info := parse_csr csr
      match submitTokenCheck settings now req db with
      | Except.error e => (Except.error e, db)
      | Except.ok (autoFromToken, validity_days, db1) =>
          let auto_approve := autoFromToken || settings.auto_sign_enabled
          let cert_type := pyOrStr req.cert_type "server"
          let cn_txt := csr_info.common_name.getD "None"
          let (request_id, db2) := create_csr_request db1 req.device_id
            csr_info.common_name (some csr)
            (some (pyOrStr req.device_ip client_host)) req.device_token
            (if csr_info.san_ips.isEmpty then none
             else some (String.intercalate "," csr_info.san_ips))
            (if csr_info.san_dns.isEmpty then none
             else some (String.intercalate "," csr_info.san_dns))
            validity_days cert_type now
          let db3 := add_audit_log db2 "CSR_SUBMIT" (some "csr_request")
            (some (Nat.repr request_id)) (some req.device_id)
            (some ("CSR submitted: CN=" ++ cn_txt)) (some client_host) now
          if auto_approve then
            let additional_ips := pySet (csr_info.san_ips ++ req.suggested_san_ips.getD [])
            let additional_dns := pySet (csr_info.san_dns ++ req.suggested_san_dns.getD [])
            match sign_csr now serial (some csr) validity_days cert_type "Device"
                (if additional_ips.isEmpty then none else some additional_ips)
                (if additional_dns.isEmpty then none else some additional_dns) with
            | Except.error e =>
                let db4 := update_request_status db3 request_id
                  RequestStatus.rejected "auto" (some e) now
                (Except.error (ApiError.signingError ("Auto-sign failed: " ++ e)), db4)
            | Except.ok cert =>
                let db4 := update_request_status db3 request_id
                  RequestStatus.approved "auto" none now
                let (_cid, db5) := create_certificate db4 (some request_id)
                  req.device_id csr_info.common_name serial cert
                  cert.not_before cert.not_after "auto" none now
                let db6 := add_audit_log db5 "CERT_ISSUED" (some "certificate")
                  (some (Nat.repr serial)) (some "auto")
                  (some ("Auto-issued: CN=" ++ cn_txt)) (some client_host) now
                (Except.ok
                  { request_id := request_id
                    status := "approved"
                    message := "Certificate issued automatically"
                    certificate := some cert
                    ca_chain := some ca.ca_chain }, db6)
          else
            (Except.ok
              { request_id := request_id
                status := "pending"
                message := "CSR submitted, waiting for approval"
                certificate := none
                ca_chain := none }, db3)

/-- `CSRApproveRequest` (`app/models.py`). -/
structure ApproveReq where
  validity_days : Option Nat
  cert_type : Option String
  device_type : Option String
  additional_ips : Option (List String)
  additional_dns : Option (List String)
deriving DecidableEq, Repr

/-- SAN-extras selection of `approve_request` (`main.py` lines 381–389):
the approver's list if non-empty (Python `req.additional_ips or []`), else
the comma-split stored `san_ips` if that column is truthy, else the stored
`device_ip` if truthy, else nothing. -/
def chooseAdditionalIps (req : ApproveReq) (csr_req : CsrRequest) : List String :=
  let fromReq := req.additional_ips.getD []
  if !fromReq.isEmpty then fromReq
  else if pyStrTruthy csr_req.san_ips then splitOnChar ',' (csr_req.san_ips.getD "")
  else if pyStrTruthy csr_req.device_ip then [csr_req.device_ip.getD ""]
  else []

/-- The part of `approve_request` (`main.py` lines 372–429) after the
`get_request_by_id` read, acting on the snapshot that read returned. The
code runs read and writes as separate SQLite transactions, so under
concurrent calls the snapshot can be stale; `approve_request` below is the
sequential composition. Returns `(certificate_id, serial_number)`. -/
def approveFinish (now serial : Nat) (request_id : Nat) (req : ApproveReq)
    (snapshot : Option CsrRequest) (client_host : String) (db : DB) :
    Except ApiError (Nat × Nat) × DB :=
  match snapshot with
  | none => (Except.error (ApiError.notFound "Request not found"), db)
  | some csr_req =>
      if csr_req.status ≠ RequestStatus.pending then
        (Except.error (ApiError.conflictError "Request already processed"), db)
      else
        let validity_days := pyOrNat req.validity_days csr_req.validity_days
        let cert_type := pyOrStr req.cert_type csr_req.cert_type
        let additional_ips := chooseAdditionalIps req csr_req
        let device_type := pyOrStr req.device_type "Device"
        match sign_csr now serial csr_req.csr_pem validity_days cert_type device_type
            (if additional_ips.isEmpty then none else some additional_ips)
            req.additional_dns with
        | Except.error e =>
            (Except.error (ApiError.signingError ("Signing failed: " ++ e)), db)
        | Except.ok cert =>
            let db1 := update_request_status db request_id
              RequestStatus.approved "admin" none now
            let (cert_id, db2) := create_certificate db1 (some request_id)
              csr_req.device_id csr_req.common_name serial cert
              cert.not_before cert.not_after "admin" none now
            let db3 := add_audit_log db2 "CERT_ISSUED" (some "certificate")
              (some (Nat.repr serial)) (some "admin")
              (some ("Approved: CN=" ++ csr_req.common_name.getD "None"))
              (some client_host) now
            (Except.ok (cert_id, serial), db3)

/-- `approve_request` (`main.py` lines 361–429): read the request row,
then hand the snapshot to `approveFinish`. -/
def approve_request (now serial : Nat) (request_id : Nat) (req : ApproveReq)
    (client_host : String) (db : DB) : Except ApiError (Nat × Nat) × DB :=
  approveFinish now serial request_id req (get_request_by_id db request_id)
    client_host db

/-- `reject_request` (`main.py` lines 432–456). -/
def reject_request (now : Nat) (request_id : Nat) (reason : String)
    (client_host : String) (db : DB) : Except ApiError String × DB :=
  match get_request_by_id db request_id with
  | none => (Except.error (ApiError.notFound "Request not found"), db)
  | some csr_req =>
      if csr_req.status ≠ RequestStatus.pending then
        (Except.error (ApiError.conflictError "Request already processed"), db)
      else
        let db1 := update_request_status db request_id
          RequestStatus.rejected "admin" (some reason) now
        let db2 := add_audit_log db1 "CSR_REJECTED" (some "csr_request")
          (some (Nat.repr request_id)) (some "admin")
          (some ("Rejected: " ++ reason)) (some client_host) now
        (Except.ok "Request rejected", db2)

/-- `delete_cert` (`main.py` lines 565–598): deletion is allowed only for
an expired (`not_after < now`) or revoked certificate. -/
def delete_cert (now : Nat) (cert_id : Nat) (client_host : String) (db : DB) :
    Except ApiError String × DB :=
  match get_certificate_by_id db cert_id with
  | none => (Except.error (ApiError.notFound "Certificate not found"), db)
  | some cert =>
      let is_expired := cert.not_after < now
      let is_revoked := cert.revoked_at.isSome
      if !is_expired && !is_revoked then
        (Except.error (ApiError.conflictError "Only expired or revoked certificates can be deleted"), db)
      else
        let db1 := delete_certificate db cert_id
        let db2 := add_audit_log db1 "CERT_DELETED" (some "certificate")
          (some (Nat.repr cert.serial_number)) (some "admin")
          (some ("Deleted: CN=" ++ cert.common_name.getD "None"))
          (some client_host) now
        (Except.ok "Certificate deleted", db2)

/-- `revoke_cert` (`main.py` lines 601–624): a second revocation of the
same certificate is refused (`if cert["revoked_at"]:` — the stored ISO
timestamp text is non-empty, so truthiness is `isSome`). -/
def revoke_cert (now : Nat) (cert_id : Nat) (reason : String)
    (client_host : String) (db : DB) : Except ApiError String × DB :=
  match get_certificate_by_id db cert_id with
  | none => (Except.error (ApiError.notFound "Certificate not found"), db)
  | some cert =>
      if cert.revoked_at.isSome then
        (Except.error (ApiError.conflictError "Certificate already revoked"), db)
      else
        let db1 := revoke_certificate db cert_id reason now
        let db2 := add_audit_log db1 "CERT_REVOKED" (some "certificate")
          (some (Nat.repr cert.serial_number)) (some "admin")
          (some ("Revoked: " ++ reason)) (some client_host) now
        (Except.ok "Certificate revoked", db2)

/-- `DeviceWhitelistAdd` (`app/models.py`). -/
structure WhitelistAddReq where
  device_token : String
  device_name : Option String
  description : Option String
  auto_approve : Bool
  validity_days : Nat
deriving DecidableEq, Repr

/-- `add_to_whitelist` (`main.py` lines 636–661). -/
def add_to_whitelist (now : Nat) (req : WhitelistAddReq) (client_host : String)
    (db : DB) : Except ApiError Nat × DB :=
  match get_device_by_token db req.device_token with
  | some _ => (Except.error (ApiError.conflictError "Token already exists"), db)
  | none =>
      let (device_id, db1) := add_device_to_whitelist db req.device_token
        req.device_name req.description req.auto_approve req.validity_days now
      let db2 := add_audit_log db1 "WHITELIST_ADD" (some "device")
        (some req.device_token) (some "admin")
        (some ("Added: " ++ pyOrStr req.device_name req.device_token))
        (some client_host) now
      (Except.ok device_id, db2)

/-- `remove_from_whitelist` (`main.py` lines 664–679): unconditional
delete plus one audit entry. -/
def remove_from_whitelist (now : Nat) (device_id : Nat) (client_host : String)
    (db : DB) : Except ApiError String × DB :=
  let db1 := delete_device_from_whitelist db device_id
  let db2 := add_audit_log db1 "WHITELIST_REMOVE" (some "device")
    (some (Nat.repr device_id)) (some "admin") (some "Device removed")
    (some client_host) now
  (Except.ok "Device removed", db2)

/-- The in-memory `active_tokens` map (`main.py` line 59): token ↦ expiry. -/
structure AuthState where
  active_tokens : List (String × Nat)
deriving DecidableEq, Repr

/-- `login` (`main.py` lines 130–141) together with `create_token`
(lines 64–69): password check, fresh token inserted with a 24-hour expiry,
one `LOGIN` audit entry. `fresh_token` models `secrets.token_urlsafe(32)`;
time is in hours here, matching the `timedelta(hours=24)` of the code. -/
def login (settings : Settings) (now : Nat) (fresh_token : String)
    (password : String) (st : AuthState) (db : DB) :
    Except ApiError (String × Nat) × AuthState × DB :=
  if password ≠ settings.admin_password then
    (Except.error (ApiError.authorizationError "Invalid password"), st, db)
  else
    let st1 : AuthState := { active_tokens := st.active_tokens ++ [(fresh_token, now + 24)] }
    let db1 := add_audit_log db "LOGIN" (some "admin") none (some "admin")
      (some "Admin logged in") none now
    (Except.ok (fresh_token, now + 24), st1, db1)

/-- `logout` (`main.py` lines 144–151): strip the `Bearer ` marker, evict
the token when present. No audit entry is written on this path. -/
def logout (authorization : Option String) (st : AuthState) (db : DB) :
    AuthState × DB :=
  if pyStrTruthy authorization then
    let token := pyReplace (authorization.getD "") "Bearer " ""
    ({ active_tokens := st.active_tokens.filter (fun p => p.1 ≠ token) }, db)
  else (st, db)

/-! ## Concrete fixtures used by witnesses and counterexamples -/

/-- A small issuer certificate for fixtures. -/
def caCert0 : SignedCert :=
  { subject := [(AttrOid.commonName, "TianShan Intermediate CA")]
    san := []
    key_usage := ⟨true, false⟩
    eku := []
    serial := 7
    not_before := 0
    not_after := 3650
    pubkey := 99 }

/-- A loaded CA fixture. -/
def ca0 : CA := { ca_cert := caCert0, ca_key := 3, ca_chain := "CA CHAIN PEM" }

/-- The IP `10.0.0.1`. -/
def ip1 : IpAddr := ⟨10, 0, 0, 1⟩

/-- A well-formed CSR fixture: CN `dev-01`, SAN `IP:10.0.0.1`, valid
self-signature. -/
def csr1 : Csr :=
  { subject := [(AttrOid.commonName, "dev-01")]
    san := some [GeneralName.ipName ip1]
    signature_valid := true
    pubkey := 5 }

/-- The same CSR with an invalid self-signature. -/
def csrBadSig : Csr := { csr1 with signature_valid := false }

/-- A stored pending request for `csr1` (id 1). -/
def reqPending : CsrRequest :=
  { id := 1
    device_id := "TIANSHAN-01"
    device_ip := some "10.0.0.1"
    device_token := none
    common_name := some "dev-01"
    san_ips := none
    san_dns := none
    csr_pem := some csr1
    status := RequestStatus.pending
    validity_days := 365
    cert_type := "server"
    created_at := 0
    processed_at := none
    processed_by := none
    reject_reason := none }

/-- A database holding just the pending request. -/
def dbPending : DB := { DB.empty with requests := [reqPending], next_request_id := 2 }

/-- The same request already approved. -/
def reqApproved : CsrRequest :=
  { reqPending with
      status := RequestStatus.approved
      processed_at := some 1
      processed_by := some "admin" }

/-- A database holding just the approved request. -/
def dbApproved : DB := { DB.empty with requests := [reqApproved], next_request_id := 2 }

/-- An approve body with the pydantic defaults
(`validity_days=365`, `device_type="Device"`, everything else absent). -/
def approveReq0 : ApproveReq :=
  { validity_days := some 365
    cert_type := none
    device_type := some "Device"
    additional_ips := none
    additional_dns := none }

/-! ## C1 — Approve on a non-pending request -/

/-- C1: for every request whose status is not `pending`, `ApproveRequest`
on its id fails with `ConflictError` and performs no mutation — the
database (hence the request's status, processed_at and processed_by, and
the certificate table) is returned unchanged. -/
theorem approve_nonpending_conflict_no_mutation
    (now serial request_id : Nat) (req : ApproveReq) (client_host : String)
    (db : DB) (r : CsrRequest)
    (hfind : get_request_by_id db request_id = some r)
    (hstatus : r.status ≠ RequestStatus.pending) :
    approve_request now serial request_id req client_host db =
      (Except.error (ApiError.conflictError "Request already processed"), db) := by
  unfold approve_request approveFinish
  rw [hfind]
  simp [hstatus]

/-- Witness for C1 at a concrete already-approved request. -/
theorem approve_nonpending_conflict_no_mutation_witness :
    approve_request 2 100 1 approveReq0 "9.9.9.9" dbApproved =
      (Except.error (ApiError.conflictError "Request already processed"), dbApproved) :=
  approve_nonpending_conflict_no_mutation 2 100 1 approveReq0 "9.9.9.9"
    dbApproved reqApproved (by rfl) (by decide)

/-! ## C2 — concurrent Approve calls

`approve_request` runs `get_request_by_id` and the subsequent writes as
separate SQLite transactions with no conditional update or lock, so two
overlapping calls can both read the `pending` snapshot before either
writes. `approveRaceDb` is that interleaving: both reads against the
initial database, then the two write phases in sequence. -/

/-- Both `Approve` calls read the request row before either commits:
the read-check-write interleaving the code permits. -/
def approveRaceDb (now serial1 serial2 request_id : Nat) (req : ApproveReq)
    (client_host : String) (db0 : DB) : DB :=
  let s1 := get_request_by_id db0 request_id
  let s2 := get_request_by_id db0 request_id
  let db1 := (approveFinish now serial1 request_id req s1 client_host db0).2
  (approveFinish now serial2 request_id req s2 client_host db1).2

/-- C2 (failing execution): two concurrent `Approve` calls on pending
request 1, interleaved read-read-write-write, leave TWO certificate
records for the request and TWO `CERT_ISSUED` audit entries — the code
does not guarantee at-most-one issuance. -/
theorem approve_race_double_issuance :
    ((approveRaceDb 2 100 101 1 approveReq0 "9.9.9.9" dbPending).certificates.filter
        (fun c => c.request_id = some 1)).length = 2
    ∧ ((approveRaceDb 2 100 101 1 approveReq0 "9.9.9.9" dbPending).audit_logs.filter
        (fun a => a.action = "CERT_ISSUED")).length = 2 := by
  constructor <;> rfl

/-! ## C7 — revoke / delete guards -/

/-- An issued certificate body for the certificate-table fixtures. -/
def cert0 : SignedCert :=
  { subject := [(AttrOid.commonName, "dev-01"), (AttrOid.organizationalUnit, "Device")]
    san := [GeneralName.ipName ip1]
    key_usage := ⟨true, true⟩
    eku := ["serverAuth", "clientAuth"]
    serial := 100
    not_before := 0
    not_after := 365
    pubkey := 5 }

/-- A stored certificate that is already revoked (id 1). -/
def certRevoked : CertRecord :=
  { id := 1
    request_id := some 1
    device_id := "TIANSHAN-01"
    common_name := some "dev-01"
    serial_number := 100
    cert := cert0
    private_key_pem := none
    not_before := 0
    not_after := 365
    issued_at := 0
    issued_by := "admin"
    revoked_at := some 5
    revoke_reason := some "key compromised" }

/-- A stored certificate that is neither expired nor revoked (id 2). -/
def certActive : CertRecord :=
  { certRevoked with
      id := 2
      serial_number := 101
      revoked_at := none
      revoke_reason := none }

/-- A database holding the two certificate fixtures. -/
def dbCerts : DB :=
  { DB.empty with certificates := [certRevoked, certActive], next_cert_id := 3 }

/-- C7: `RevokeCertificate` on a certificate whose revoked_at is already
set fails with `ConflictError` and mutates nothing (so revoked_at is set at
most once), and `DeleteCertificate` on a certificate that is neither
expired (`not_after < now` is false) nor revoked fails with
`ConflictError` and deletes nothing. -/
theorem revoke_delete_conflict_guards :
    (∀ (now cert_id : Nat) (reason client_host : String) (db : DB) (cert : CertRecord),
      get_certificate_by_id db cert_id = some cert →
      cert.revoked_at.isSome →
      revoke_cert now cert_id reason client_host db =
        (Except.error (ApiError.conflictError "Certificate already revoked"), db))
    ∧ (∀ (now cert_id : Nat) (client_host : String) (db : DB) (cert : CertRecord),
      get_certificate_by_id db cert_id = some cert →
      ¬ cert.not_after < now →
      cert.revoked_at = none →
      delete_cert now cert_id client_host db =
        (Except.error
          (ApiError.conflictError "Only expired or revoked certificates can be deleted"), db)) := by
  constructor
  · intro now cert_id reason client_host db cert hfind hrev
    unfold revoke_cert
    rw [hfind]
    simp [hrev]
  · intro now cert_id client_host db cert hfind hexp hrev
    unfold delete_cert
    rw [hfind]
    simp [hrev, hexp]

/-- Witness for C7: the double revoke and the ineligible delete both fail
on the concrete certificate table. -/
theorem revoke_delete_conflict_guards_witness :
    revoke_cert 10 1 "again" "9.9.9.9" dbCerts =
      (Except.error (ApiError.conflictError "Certificate already revoked"), dbCerts)
    ∧ delete_cert 10 2 "9.9.9.9" dbCerts =
      (Except.error
        (ApiError.conflictError "Only expired or revoked certificates can be deleted"), dbCerts) :=
  ⟨revoke_delete_conflict_guards.1 10 1 "again" "9.9.9.9" dbCerts certRevoked rfl (by decide),
   revoke_delete_conflict_guards.2 10 2 "9.9.9.9" dbCerts certActive rfl (by decide) rfl⟩

/-! ## C4 — token required, token absent or unknown -/

/-- C4: while device tokens are required, a Submit whose CSR parses but
whose device token is absent (or Python-falsy) or not in the whitelist
fails with `AuthorizationError` and leaves the whole database — in
particular the request store — unchanged. -/
theorem submit_token_required_auth_error
    (ca : CA) (settings : Settings) (now serial : Nat) (req : SubmitReq)
    (client_host : String) (db : DB) (c : Csr)
    (hcsr : req.csr_pem = some c)
    (hreq : settings.require_device_token = true) :
    (pyStrTruthy req.device_token = false →
      submit_csr ca settings now serial req client_host db =
        (Except.error (ApiError.authorizationError "Device token required"), db))
    ∧ (∀ t, req.device_token = some t → t ≠ "" → get_device_by_token db t = none →
      submit_csr ca settings now serial req client_host db =
        (Except.error (ApiError.authorizationError "Device token not in whitelist"), db)) := by
  constructor
  · intro hfal
    have hstep : submitTokenCheck settings now req db =
        Except.error (ApiError.authorizationError "Device token required") := by
      unfold submitTokenCheck
      simp [hfal, hreq]
    unfold submit_csr
    rw [hcsr]
    simp only [hstep]
  · intro t ht htne hfind
    have htr : pyStrTruthy req.device_token = true := by
      simp [ht, pyStrTruthy, htne]
    have hget : req.device_token.getD "" = t := by
      rw [ht]; rfl
    have hstep : submitTokenCheck settings now req db =
        Except.error (ApiError.authorizationError "Device token not in whitelist") := by
      unfold submitTokenCheck
      simp [htr, hget, hfind, hreq]
    unfold submit_csr
    rw [hcsr]
    simp only [hstep]

/-- Settings with tokens required and no global auto-sign
(`config.py` defaults). -/
def settingsStrict : Settings :=
  { default_validity_days := 365
    auto_sign_enabled := false
    require_device_token := true
    admin_password := "tianshan-pki-admin" }

/-- A submission of `csr1` with an unknown device token. -/
def submitReqUnknownTok : SubmitReq :=
  { device_id := "TIANSHAN-04"
    csr_pem := some csr1
    device_token := some "no-such-token"
    device_ip := none
    validity_days := some 365
    cert_type := some "server"
    suggested_san_ips := none
    suggested_san_dns := none }

/-- A submission of `csr1` with no device token at all. -/
def submitReqNoTok : SubmitReq := { submitReqUnknownTok with device_token := none }

/-- Witness for C4: both the missing-token and the unknown-token case on
an empty whitelist. -/
theorem submit_token_required_auth_error_witness :
    submit_csr ca0 settingsStrict 1 100 submitReqNoTok "10.0.0.9" DB.empty =
      (Except.error (ApiError.authorizationError "Device token required"), DB.empty)
    ∧ submit_csr ca0 settingsStrict 1 100 submitReqUnknownTok "10.0.0.9" DB.empty =
      (Except.error (ApiError.authorizationError "Device token not in whitelist"), DB.empty) :=
  ⟨(submit_token_required_auth_error ca0 settingsStrict 1 100 submitReqNoTok
      "10.0.0.9" DB.empty csr1 rfl rfl).1 rfl,
   (submit_token_required_auth_error ca0 settingsStrict 1 100 submitReqUnknownTok
      "10.0.0.9" DB.empty csr1 rfl rfl).2 "no-such-token" rfl (by decide) rfl⟩

/-! ## C3 — signing failure during Approve -/

/-- Mapping a pointwise-identity function over a list is the identity. -/
theorem map_id_of_mem {α : Type} {f : α → α} :
    ∀ {l : List α}, (∀ x ∈ l, f x = x) → l.map f = l
  | [], _ => rfl
  | a :: t, h => by
      have ha : f a = a := h a (by simp)
      have ht := map_id_of_mem (l := t) (fun x hx => h x (by simp [hx]))
      simp [ha, ht]

/-- A passing `submitTokenCheck` touches at most the whitelist table: the
other tables and the AUTOINCREMENT counters are unchanged. -/
theorem submitTokenCheck_ok_tables (settings : Settings) (now : Nat)
    (req : SubmitReq) (db : DB) (af : Bool) (vd : Nat) (db1 : DB)
    (h : submitTokenCheck settings now req db = Except.ok (af, vd, db1)) :
    db1.requests = db.requests ∧ db1.certificates = db.certificates ∧
    db1.audit_logs = db.audit_logs ∧ db1.next_request_id = db.next_request_id ∧
    db1.next_cert_id = db.next_cert_id := by
  unfold submitTokenCheck at h
  split at h
  · rename_i htok
    cases hdev : get_device_by_token db (req.device_token.getD "") <;>
      simp only [hdev] at h
    · split at h
      · exact absurd h (by simp)
      · cases h
        exact ⟨rfl, rfl, rfl, rfl, rfl⟩
    · split at h <;> cases h <;> exact ⟨rfl, rfl, rfl, rfl, rfl⟩
  · split at h
    · exact absurd h (by simp)
    · cases h
      exact ⟨rfl, rfl, rfl, rfl, rfl⟩

/-- Settings with the global auto-sign switch on and tokens not required. -/
def settingsAuto : Settings :=
  { default_validity_days := 365
    auto_sign_enabled := true
    require_device_token := false
    admin_password := "tianshan-pki-admin" }

/-- A submission of the bad-signature CSR. -/
def submitReqBadSig : SubmitReq :=
  { device_id := "TIANSHAN-02"
    csr_pem := some csrBadSig
    device_token := none
    device_ip := none
    validity_days := some 365
    cert_type := some "server"
    suggested_san_ips := none
    suggested_san_dns := none }

/-- C3 fails on the code: when the internal Approve run by Submit on
auto-approval hits a signing failure, the request is NOT left `pending` —
it is set to `rejected` by `update_request_status(..., REJECTED, "auto", str(e))`
(`main.py` line 253). Concretely: auto-sign on, CSR self-signature invalid,
the stored request ends `rejected` with the error recorded. -/
theorem submit_signfail_rejected_counterexample :
    ((submit_csr ca0 settingsAuto 3 100 submitReqBadSig "10.0.0.2" DB.empty).2.requests.map
        (fun r => (r.id, r.status, r.processed_by, r.reject_reason)))
      = [(1, RequestStatus.rejected, some "auto", some "CSR signature is invalid")]
    ∧ (submit_csr ca0 settingsAuto 3 100 submitReqBadSig "10.0.0.2" DB.empty).2.certificates = []
    ∧ (submit_csr ca0 settingsAuto 3 100 submitReqBadSig "10.0.0.2" DB.empty).1
        = Except.error (ApiError.signingError "Auto-sign failed: CSR signature is invalid") :=
  ⟨rfl, rfl, rfl⟩

/-- C3 as amended: (i) in the admin `Approve` handler a signing failure
(unloadable stored PEM or invalid CSR self-signature) leaves the database —
hence the request's `pending` status — unchanged, creates no certificate,
and the caller receives the error; (ii) in the auto-approval path of
`Submit`, a signing failure instead marks the just-created request
`rejected` (processed_by `auto`, the signing error as reject_reason),
still creates no certificate, and the caller receives the error. -/
theorem signing_failure_outcomes :
    (∀ (now serial request_id : Nat) (req : ApproveReq) (client_host : String)
        (db : DB) (r : CsrRequest),
      get_request_by_id db request_id = some r →
      r.status = RequestStatus.pending →
      (r.csr_pem = none ∨ ∃ c, r.csr_pem = some c ∧ c.signature_valid = false) →
      ∃ e, approve_request now serial request_id req client_host db =
        (Except.error (ApiError.signingError e), db))
    ∧ (∀ (ca : CA) (settings : Settings) (now serial : Nat) (req : SubmitReq)
        (client_host : String) (db : DB) (c : Csr) (af : Bool) (vd : Nat) (db1 : DB),
      req.csr_pem = some c →
      c.signature_valid = false →
      submitTokenCheck settings now req db = Except.ok (af, vd, db1) →
      (af || settings.auto_sign_enabled) = true →
      (∀ r ∈ db.requests, r.id < db.next_request_id) →
      (submit_csr ca settings now serial req client_host db).1 =
        Except.error (ApiError.signingError "Auto-sign failed: CSR signature is invalid")
      ∧ (submit_csr ca settings now serial req client_host db).2.certificates = db.certificates
      ∧ ∃ row, (submit_csr ca settings now serial req client_host db).2.requests
            = db.requests ++ [row]
          ∧ row.status = RequestStatus.rejected
          ∧ row.processed_by = some "auto"
          ∧ row.reject_reason = some "CSR signature is invalid") := by
  constructor
  · intro now serial request_id req client_host db r hfind hpend hbad
    rcases hbad with h0 | ⟨c, hc, hs⟩
    · refine ⟨"Signing failed: Unable to load PEM file", ?_⟩
      unfold approve_request approveFinish
      rw [hfind]
      simp [hpend, h0, sign_csr]
    · refine ⟨"Signing failed: CSR signature is invalid", ?_⟩
      unfold approve_request approveFinish
      rw [hfind]
      simp [hpend, hc, sign_csr, hs]
  · intro ca settings now serial req client_host db c af vd db1 hcsr hsig hstep hauto hwf
    obtain ⟨hreqs, hcerts, -, hnext, -⟩ :=
      submitTokenCheck_ok_tables settings now req db af vd db1 hstep
    unfold submit_csr
    rw [hcsr]
    simp only [hstep]
    have hsign : ∀ ips dns, sign_csr now serial (some c)
        vd (pyOrStr req.cert_type "server") "Device" ips dns =
        Except.error "CSR signature is invalid" := by
      intro ips dns
      simp [sign_csr, hsig]
    simp only [hauto, create_csr_request, add_audit_log, update_request_status,
      Bool.true_eq, if_true, hsign]
    refine ⟨rfl, by simp [hcerts], ?_⟩
    refine ⟨{ id := db.next_request_id
              device_id := req.device_id
              device_ip := some (pyOrStr req.device_ip client_host)
              device_token := req.device_token
              common_name := (parse_csr c).common_name
              san_ips := if (parse_csr c).san_ips.isEmpty then none
                else some (String.intercalate "," (parse_csr c).san_ips)
              san_dns := if (parse_csr c).san_dns.isEmpty then none
                else some (String.intercalate "," (parse_csr c).san_dns)
              csr_pem := some c
              status := RequestStatus.rejected
              validity_days := vd
              cert_type := pyOrStr req.cert_type "server"
              created_at := now
              processed_at := some now
              processed_by := some "auto"
              reject_reason := some "CSR signature is invalid" }, ?_, rfl, rfl, rfl⟩
    simp only [List.map_append]
    simp only [hreqs, hnext]
    congr 1
    · refine map_id_of_mem (fun r hr => ?_)
      have hlt : r.id < db.next_request_id := hwf r hr
      simp [Nat.ne_of_lt hlt]
    · simp

/-- The pending request again, but storing the bad-signature CSR. -/
def reqPendingBad : CsrRequest := { reqPending with csr_pem := some csrBadSig }

/-- A database holding just that request. -/
def dbPendingBad : DB := { DB.empty with requests := [reqPendingBad], next_request_id := 2 }

/-- Witness for the amended C3 at concrete inputs: the admin path on a
stored bad-signature CSR, and the auto-approval Submit path. -/
theorem signing_failure_outcomes_witness :
    (∃ e, approve_request 2 100 1 approveReq0 "9.9.9.9" dbPendingBad =
        (Except.error (ApiError.signingError e), dbPendingBad))
    ∧ ((submit_csr ca0 settingsAuto 3 100 submitReqBadSig "10.0.0.2" DB.empty).1 =
          Except.error (ApiError.signingError "Auto-sign failed: CSR signature is invalid")
        ∧ (submit_csr ca0 settingsAuto 3 100 submitReqBadSig "10.0.0.2" DB.empty).2.certificates
            = DB.empty.certificates
        ∧ ∃ row,
            (submit_csr ca0 settingsAuto 3 100 submitReqBadSig "10.0.0.2" DB.empty).2.requests
                = DB.empty.requests ++ [row]
              ∧ row.status = RequestStatus.rejected
              ∧ row.processed_by = some "auto"
              ∧ row.reject_reason = some "CSR signature is invalid") :=
  ⟨signing_failure_outcomes.1 2 100 1 approveReq0 "9.9.9.9" dbPendingBad reqPendingBad
      rfl rfl (Or.inr ⟨csrBadSig, rfl, rfl⟩),
   signing_failure_outcomes.2 ca0 settingsAuto 3 100 submitReqBadSig "10.0.0.2" DB.empty
      csrBadSig false 365 DB.empty rfl rfl rfl rfl (by simp [DB.empty])⟩

/-! ## C8 — one audit entry per security-relevant mutation -/

/-- C8 fails on the code: `logout` (`main.py` lines 144–151) evicts the
bearer token — a security-relevant mutation — but appends no audit entry.
Concretely: the active-token map loses the token, the audit log stays
empty. -/
theorem logout_unaudited_counterexample :
    (logout (some "Bearer tokT") ⟨[("tokT", 24)]⟩ DB.empty).1.active_tokens = []
    ∧ ([] : List (String × Nat)) ≠ [("tokT", 24)]
    ∧ (logout (some "Bearer tokT") ⟨[("tokT", 24)]⟩ DB.empty).2.audit_logs = [] := by
  refine ⟨by decide, by decide, by decide⟩

/-- C8 as amended: certificate issuance (admin approval), revocation,
deletion, whitelist add and remove, and admin login each append exactly
one audit-log entry on success; logout appends none. -/
theorem audit_one_entry_per_mutation :
    (∀ (now serial request_id : Nat) (req : ApproveReq) (client_host : String)
        (db : DB) (v : Nat × Nat) (db2 : DB),
      approve_request now serial request_id req client_host db = (Except.ok v, db2) →
      db2.audit_logs.length = db.audit_logs.length + 1)
    ∧ (∀ (now cert_id : Nat) (reason client_host : String) (db : DB) (v : String) (db2 : DB),
      revoke_cert now cert_id reason client_host db = (Except.ok v, db2) →
      db2.audit_logs.length = db.audit_logs.length + 1)
    ∧ (∀ (now cert_id : Nat) (client_host : String) (db : DB) (v : String) (db2 : DB),
      delete_cert now cert_id client_host db = (Except.ok v, db2) →
      db2.audit_logs.length = db.audit_logs.length + 1)
    ∧ (∀ (now : Nat) (req : WhitelistAddReq) (client_host : String) (db : DB)
        (v : Nat) (db2 : DB),
      add_to_whitelist now req client_host db = (Except.ok v, db2) →
      db2.audit_logs.length = db.audit_logs.length + 1)
    ∧ (∀ (now device_id : Nat) (client_host : String) (db : DB) (v : String) (db2 : DB),
      remove_from_whitelist now device_id client_host db = (Except.ok v, db2) →
      db2.audit_logs.length = db.audit_logs.length + 1)
    ∧ (∀ (settings : Settings) (now : Nat) (fresh_token password : String)
        (st : AuthState) (db : DB) (v : String × Nat) (st2 : AuthState) (db2 : DB),
      login settings now fresh_token password st db = (Except.ok v, st2, db2) →
      db2.audit_logs.length = db.audit_logs.length + 1)
    ∧ (∀ (authorization : Option String) (st : AuthState) (db : DB),
      (logout authorization st db).2.audit_logs = db.audit_logs) := by
  refine ⟨?_, ?_, ?_, ?_, ?_, ?_, ?_⟩
  · intro now serial request_id req client_host db v db2 h
    unfold approve_request approveFinish at h
    split at h
    · simp at h
    · split at h
      · simp at h
      · simp only [create_certificate, update_request_status, add_audit_log] at h
        split at h
        · simp at h
        · rw [Prod.mk.injEq] at h
          obtain ⟨-, h2⟩ := h
          simp [← h2]
  · intro now cert_id reason client_host db v db2 h
    unfold revoke_cert at h
    split at h
    · simp at h
    · split at h
      · simp at h
      · simp only [add_audit_log, revoke_certificate] at h
        rw [Prod.mk.injEq] at h
        obtain ⟨-, h2⟩ := h
        simp [← h2]
  · intro now cert_id client_host db v db2 h
    unfold delete_cert at h
    split at h
    · simp at h
    · simp only [add_audit_log, delete_certificate] at h
      split at h
      · simp at h
      · rw [Prod.mk.injEq] at h
        obtain ⟨-, h2⟩ := h
        simp [← h2]
  · intro now req client_host db v db2 h
    unfold add_to_whitelist at h
    split at h
    · simp at h
    · simp only [add_audit_log, add_device_to_whitelist] at h
      rw [Prod.mk.injEq] at h
      obtain ⟨-, h2⟩ := h
      simp [← h2]
  · intro now device_id client_host db v db2 h
    unfold remove_from_whitelist at h
    rw [Prod.mk.injEq] at h
    obtain ⟨-, h2⟩ := h
    simp [← h2, add_audit_log, delete_device_from_whitelist]
  · intro settings now fresh_token password st db v st2 db2 h
    unfold login at h
    split at h
    · simp at h
    · rw [Prod.mk.injEq] at h
      obtain ⟨-, h2⟩ := h
      rw [Prod.mk.injEq] at h2
      obtain ⟨-, h3⟩ := h2
      simp [← h3, add_audit_log]
  · intro authorization st db
    unfold logout
    split <;> rfl

/-- A whitelist-add body fixture. -/
def wlReq : WhitelistAddReq :=
  { device_token := "tokA"
    device_name := some "AGX-01"
    description := none
    auto_approve := true
    validity_days := 30 }

/-- Witness for the amended C8: each listed mutation at a concrete success
input appends exactly one entry; a concrete logout appends none. -/
theorem audit_one_entry_per_mutation_witness :
    (approve_request 2 100 1 approveReq0 "9.9.9.9" dbPending).2.audit_logs.length
        = dbPending.audit_logs.length + 1
    ∧ (revoke_cert 10 2 "compromise" "9.9.9.9" dbCerts).2.audit_logs.length
        = dbCerts.audit_logs.length + 1
    ∧ (delete_cert 10 1 "9.9.9.9" dbCerts).2.audit_logs.length
        = dbCerts.audit_logs.length + 1
    ∧ (add_to_whitelist 0 wlReq "9.9.9.9" DB.empty).2.audit_logs.length
        = DB.empty.audit_logs.length + 1
    ∧ (remove_from_whitelist 0 1 "9.9.9.9" DB.empty).2.audit_logs.length
        = DB.empty.audit_logs.length + 1
    ∧ (login settingsStrict 0 "tokT" "tianshan-pki-admin" ⟨[]⟩ DB.empty).2.2.audit_logs.length
        = DB.empty.audit_logs.length + 1
    ∧ (logout (some "Bearer tokB") ⟨[("tokB", 24)]⟩ dbCerts).2.audit_logs
        = dbCerts.audit_logs :=
  ⟨audit_one_entry_per_mutation.1 2 100 1 approveReq0 "9.9.9.9" dbPending (1, 100) _ rfl,
   audit_one_entry_per_mutation.2.1 10 2 "compromise" "9.9.9.9" dbCerts
     "Certificate revoked" _ rfl,
   audit_one_entry_per_mutation.2.2.1 10 1 "9.9.9.9" dbCerts "Certificate deleted" _ rfl,
   audit_one_entry_per_mutation.2.2.2.1 0 wlReq "9.9.9.9" DB.empty 1 _ rfl,
   audit_one_entry_per_mutation.2.2.2.2.1 0 1 "9.9.9.9" DB.empty "Device removed" _ rfl,
   audit_one_entry_per_mutation.2.2.2.2.2.1 settingsStrict 0 "tokT" "tianshan-pki-admin"
     ⟨[]⟩ DB.empty ("tokT", 24) ⟨[("tokT", 24)]⟩ _ rfl,
   audit_one_entry_per_mutation.2.2.2.2.2.2 (some "Bearer tokB") ⟨[("tokB", 24)]⟩ dbCerts⟩

/-! ## C5 — SAN merging in `sign_csr` -/

/-- C5 fails on the code: `sign_csr` extends the CSR's SAN entries with the
parsed extras WITHOUT de-duplicating (`ca.py` lines 123–144), so an extra
IP that repeats a CSR SAN entry appears twice in the issued certificate.
Concretely: CSR SAN `IP:10.0.0.1` plus extra `"10.0.0.1"` yields the SAN
list `[10.0.0.1, 10.0.0.1]`. -/
theorem sign_csr_duplicate_san_counterexample :
    sign_csr 0 100 (some csr1) 365 "server" "Device" (some ["10.0.0.1"]) none
      = Except.ok
        { subject := [(AttrOid.commonName, "dev-01"), (AttrOid.organizationalUnit, "Device")]
          san := [GeneralName.ipName ip1, GeneralName.ipName ip1]
          key_usage := ⟨true, true⟩
          eku := ["serverAuth", "clientAuth"]
          serial := 100
          not_before := 0
          not_after := 365
          pubkey := 5 }
    ∧ ¬ List.Nodup [GeneralName.ipName ip1, GeneralName.ipName ip1] := by
  exact ⟨by rfl, by decide⟩

/-- C5 as amended: the issued certificate's SAN list is the concatenation
of the CSR's SAN entries, the caller-supplied extra IPs that parse as IP
addresses (an unparseable extra is silently dropped), and the extra DNS
names, in order and without de-duplication; consequently, as a set, the
SAN entries are exactly the union of the CSR's SAN entries, the parseable
extras as IP entries, and the extra DNS names — but an entry may occur
twice, so the "no SAN entry appears twice" part of the claim is false. -/
theorem sign_csr_san_characterization
    (now serial validity_days : Nat) (csr : Csr) (cert_type device_type : String)
    (ips dns : Option (List String)) (cert : SignedCert)
    (h : sign_csr now serial (some csr) validity_days cert_type device_type ips dns
      = Except.ok cert) :
    cert.san = (csr.san.getD [])
        ++ (ips.getD []).filterMap (fun s => (parseIp s).map GeneralName.ipName)
        ++ (dns.getD []).map GeneralName.dnsName
    ∧ ∀ n, n ∈ cert.san ↔
        (n ∈ csr.san.getD []
          ∨ (∃ s ∈ ips.getD [], ∃ a, parseIp s = some a ∧ n = GeneralName.ipName a)
          ∨ (∃ s ∈ dns.getD [], n = GeneralName.dnsName s)) := by
  by_cases hs : csr.signature_valid
  case neg =>
    have hbad : sign_csr now serial (some csr) validity_days cert_type device_type ips dns
        = Except.error "CSR signature is invalid" := by
      simp [sign_csr, hs]
    rw [hbad] at h
    exact absurd h (by simp)
  case pos =>
    have hok : sign_csr now serial (some csr) validity_days cert_type device_type ips dns
        = Except.ok
          { subject := buildSubject csr device_type
            san := buildSan csr ips dns
            key_usage := (keyUsageFor cert_type).1
            eku := (keyUsageFor cert_type).2
            serial := serial
            not_before := now
            not_after := now + validity_days
            pubkey := csr.pubkey } := by
      simp [sign_csr, hs]
    rw [hok] at h
    injection h with h2
    subst h2
    constructor
    · rfl
    · intro n
      show n ∈ buildSan csr ips dns ↔ _
      unfold buildSan
      simp only [List.mem_append, List.mem_filterMap, List.mem_map,
        Option.map_eq_some']
      constructor
      · rintro ((hn | ⟨s, hs, a, ha, hn⟩) | ⟨s, hs, hn⟩)
        · exact Or.inl hn
        · exact Or.inr (Or.inl ⟨s, hs, a, ha, hn.symm⟩)
        · exact Or.inr (Or.inr ⟨s, hs, hn.symm⟩)
      · rintro (hn | ⟨s, hs, a, ha, hn⟩ | ⟨s, hs, hn⟩)
        · exact Or.inl (Or.inl hn)
        · exact Or.inl (Or.inr ⟨s, hs, a, ha, hn.symm⟩)
        · exact Or.inr ⟨s, hs, hn.symm⟩

/-- Witness for the amended C5: with CSR SAN `IP:10.0.0.1`, extras
`["10.0.0.1", "not-an-ip"]` and DNS extra `dev.local`, the issued SAN is
the concatenation with the unparseable extra dropped and the duplicate
kept. -/
theorem sign_csr_san_characterization_witness :
    ∃ cert, sign_csr 0 100 (some csr1) 365 "server" "Device"
        (some ["10.0.0.1", "not-an-ip"]) (some ["dev.local"]) = Except.ok cert
      ∧ cert.san = [GeneralName.ipName ip1, GeneralName.ipName ip1,
          GeneralName.dnsName "dev.local"] := by
  refine ⟨_, rfl, ?_⟩
  have h := sign_csr_san_characterization 0 100 365 csr1 "server" "Device"
    (some ["10.0.0.1", "not-an-ip"]) (some ["dev.local"]) _ rfl
  rw [h.1]
  rfl

/-! ## C6 — whitelist policy precedence -/

/-- Settings with BOTH tokens required and the global auto-sign switch on. -/
def settingsStrictAuto : Settings :=
  { default_validity_days := 365
    auto_sign_enabled := true
    require_device_token := true
    admin_password := "tianshan-pki-admin" }

/-- C6 fails on the code: the token-requirement check (`main.py` lines
176–186) runs BEFORE the global auto-sign switch (line 189), so with
tokens required a submission without a token is rejected with
`AuthorizationError` even though `auto_sign_enabled` is on — approval is
not unconditional. -/
theorem global_autosign_not_unconditional_counterexample :
    submit_csr ca0 settingsStrictAuto 1 100 submitReqNoTok "10.0.0.9" DB.empty
      = (Except.error (ApiError.authorizationError "Device token required"), DB.empty) := rfl

/-- C6 as amended: the token-requirement check runs first and can reject a
submission regardless of the global switch. For submissions that pass it:
(a) if the token evaluation yielded `(af, vd, _)` and `af ∨ globalAutoSign`
holds, the submission is approved immediately and the issued certificate's
validity is `vd` days; (b) a known, Python-truthy token with
`autoApprove = true` makes the token evaluation yield
`(true, device.validityDays, …)` — the entry's override (this is `vd` in
(a), also when the global switch is on); (c) with the global switch off
and the token evaluation yielding `af = false`, the request queues as
`pending` and no certificate is created. -/
theorem submit_policy_precedence
    (ca : CA) (settings : Settings) (now serial : Nat) (req : SubmitReq)
    (client_host : String) (db : DB) (c : Csr)
    (hcsr : req.csr_pem = some c)
    (hsig : c.signature_valid = true) :
    (∀ (af : Bool) (vd : Nat) (db1 : DB),
      submitTokenCheck settings now req db = Except.ok (af, vd, db1) →
      (af || settings.auto_sign_enabled) = true →
      ∃ resp cert, (submit_csr ca settings now serial req client_host db).1 = Except.ok resp
        ∧ resp.status = "approved" ∧ resp.certificate = some cert
        ∧ cert.not_after - cert.not_before = vd)
    ∧ (∀ (t : String) (device : WhitelistEntry),
      req.device_token = some t → t ≠ "" →
      get_device_by_token db t = some device → device.auto_approve = true →
      submitTokenCheck settings now req db =
        Except.ok (true, device.validity_days, update_device_last_used db t now))
    ∧ (settings.auto_sign_enabled = false →
      ∀ (vd : Nat) (db1 : DB),
      submitTokenCheck settings now req db = Except.ok (false, vd, db1) →
      ∃ resp, (submit_csr ca settings now serial req client_host db).1 = Except.ok resp
        ∧ resp.status = "pending" ∧ resp.certificate = none
        ∧ (submit_csr ca settings now serial req client_host db).2.certificates
            = db.certificates) := by
  refine ⟨?_, ?_, ?_⟩
  · intro af vd db1 hstep hauto
    unfold submit_csr
    rw [hcsr]
    simp only [hstep]
    have hsign : ∀ ips dns, sign_csr now serial (some c)
        vd (pyOrStr req.cert_type "server") "Device" ips dns =
        Except.ok
          { subject := buildSubject c "Device"
            san := buildSan c ips dns
            key_usage := (keyUsageFor (pyOrStr req.cert_type "server")).1
            eku := (keyUsageFor (pyOrStr req.cert_type "server")).2
            serial := serial
            not_before := now
            not_after := now + vd
            pubkey := c.pubkey } := by
      intro ips dns
      simp [sign_csr, hsig]
    simp only [hauto, Bool.true_eq, if_true, hsign]
    exact ⟨_, _, rfl, rfl, rfl, by simp⟩
  · intro t device ht htne hdev hauto
    have htr : pyStrTruthy req.device_token = true := by
      simp [ht, pyStrTruthy, htne]
    have hget : req.device_token.getD "" = t := by rw [ht]; rfl
    unfold submitTokenCheck
    simp [htr, hget, hdev, hauto]
  · intro hglobal vd db1 hstep
    obtain ⟨-, hcerts, -, -, -⟩ :=
      submitTokenCheck_ok_tables settings now req db false vd db1 hstep
    unfold submit_csr
    rw [hcsr]
    simp only [hstep]
    simp only [hglobal, Bool.or_false, Bool.false_eq_true, if_false]
    exact ⟨_, rfl, rfl, rfl, by simp [add_audit_log, create_csr_request, hcerts]⟩

/-- A whitelisted device with auto-approve on and a 30-day override. -/
def wlDeviceAuto : WhitelistEntry :=
  { id := 1
    device_token := "tokA"
    device_name := some "AGX-01"
    description := none
    auto_approve := true
    validity_days := 30
    created_at := 0
    last_used_at := none }

/-- A whitelisted device without auto-approve. -/
def wlDeviceManual : WhitelistEntry :=
  { wlDeviceAuto with id := 2, device_token := "tokB", auto_approve := false }

/-- A database holding the two whitelist entries. -/
def dbWl : DB :=
  { DB.empty with whitelist := [wlDeviceAuto, wlDeviceManual], next_whitelist_id := 3 }

/-- Submission of `csr1` with the auto-approve token. -/
def submitReqTokA : SubmitReq := { submitReqUnknownTok with device_token := some "tokA" }

/-- Submission of `csr1` with the manual-review token. -/
def submitReqTokB : SubmitReq := { submitReqUnknownTok with device_token := some "tokB" }

/-- Witness for the amended C6: (a) global auto-sign approves a
token-free submission (tokens not required) with the requested 365-day
validity; (b) the auto-approve token evaluates to its 30-day override;
(c) the manual token queues as pending with no certificate. -/
theorem submit_policy_precedence_witness :
    (∃ resp cert, (submit_csr ca0 settingsAuto 1 100 submitReqNoTok "10.0.0.9" DB.empty).1
          = Except.ok resp
        ∧ resp.status = "approved" ∧ resp.certificate = some cert
        ∧ cert.not_after - cert.not_before = 365)
    ∧ submitTokenCheck settingsStrict 1 submitReqTokA dbWl =
        Except.ok (true, 30, update_device_last_used dbWl "tokA" 1)
    ∧ (∃ resp, (submit_csr ca0 settingsStrict 1 100 submitReqTokB "10.0.0.9" dbWl).1
          = Except.ok resp
        ∧ resp.status = "pending" ∧ resp.certificate = none
        ∧ (submit_csr ca0 settingsStrict 1 100 submitReqTokB "10.0.0.9" dbWl).2.certificates
            = dbWl.certificates) :=
  ⟨(submit_policy_precedence ca0 settingsAuto 1 100 submitReqNoTok "10.0.0.9" DB.empty
      csr1 rfl rfl).1 false 365 DB.empty rfl rfl,
   (submit_policy_precedence ca0 settingsStrict 1 100 submitReqTokA "10.0.0.9" dbWl
      csr1 rfl rfl).2.1 "tokA" wlDeviceAuto rfl (by decide) rfl rfl,
   (submit_policy_precedence ca0 settingsStrict 1 100 submitReqTokB "10.0.0.9" dbWl
      csr1 rfl rfl).2.2 rfl 365 (update_device_last_used dbWl "tokB" 1) rfl⟩

/-! ## C9 — client-certificate generation and its PKCS#12 archive -/

/-- C9: for every `GenerateClientCertificate` call, the PKCS#12 archive is
encrypted with the password drawn freshly for that call
(`secrets.token_urlsafe(12)`), which is returned exactly once (the single
`pkcs12_password` component and the archive's encryption password
coincide with it); the archive contains the generated certificate and the
private key matching the returned PEM values (the certificate carries that
key's public half) plus the issuer chain `[ca_cert]`. -/
theorem client_cert_pkcs12_contents
    (ca : CA) (now fresh_key serial : Nat) (fresh_password : String)
    (common_name : String) (validity_days : Nat) (email : Option String) (role : String) :
    let r := generate_client_cert ca now fresh_key serial fresh_password
      common_name validity_days email role
    r.pkcs12.password = r.pkcs12_password
    ∧ r.pkcs12_password = fresh_password
    ∧ r.pkcs12.cert = r.cert_pem
    ∧ r.pkcs12.key = r.key_pem
    ∧ r.cert_pem.pubkey = r.key_pem
    ∧ r.pkcs12.cas = [ca.ca_cert]
    ∧ r.pkcs12.name = common_name :=
  ⟨rfl, rfl, rfl, rfl, rfl, rfl, rfl⟩

/-! ## C10 — SAN substitution on admin approval -/

/-- C10: when the approver supplies no additional IP SANs (absent or the
Python-falsy empty list), `approve_request` silently substitutes extras
before signing — the request's stored comma-joined `san_ips` when that
column is truthy, else the stored device IP when present; those extras are
what `sign_csr` appends to the CSR's SAN; in particular, when the request
stored no SAN IPs, the submitting device's recorded IP (if it parses)
lands in the issued certificate's SAN. -/
theorem approve_san_fallback
    (now serial request_id : Nat) (req : ApproveReq) (client_host : String)
    (db : DB) (r : CsrRequest) (c : Csr)
    (hfind : get_request_by_id db request_id = some r)
    (hpend : r.status = RequestStatus.pending)
    (hcsr : r.csr_pem = some c)
    (hsig : c.signature_valid = true)
    (hnoips : req.additional_ips = none ∨ req.additional_ips = some []) :
    chooseAdditionalIps req r =
      (if pyStrTruthy r.san_ips then splitOnChar ',' (r.san_ips.getD "")
       else if pyStrTruthy r.device_ip then [r.device_ip.getD ""] else [])
    ∧ (∃ cert_id db2 cert,
      approve_request now serial request_id req client_host db
          = (Except.ok (cert_id, serial), db2)
        ∧ cert ∈ db2.certificates.map CertRecord.cert
        ∧ cert.san = buildSan c
            (if (chooseAdditionalIps req r).isEmpty then none
             else some (chooseAdditionalIps req r))
            req.additional_dns)
    ∧ (∀ ip a, pyStrTruthy r.san_ips = false → r.device_ip = some ip → ip ≠ "" →
      parseIp ip = some a →
      GeneralName.ipName a ∈ buildSan c
        (if (chooseAdditionalIps req r).isEmpty then none
         else some (chooseAdditionalIps req r))
        req.additional_dns) := by
  have hchoose : chooseAdditionalIps req r =
      (if pyStrTruthy r.san_ips then splitOnChar ',' (r.san_ips.getD "")
       else if pyStrTruthy r.device_ip then [r.device_ip.getD ""] else []) := by
    unfold chooseAdditionalIps
    rcases hnoips with h0 | h0 <;> simp [h0]
  refine ⟨hchoose, ?_, ?_⟩
  · unfold approve_request approveFinish
    rw [hfind]
    have hsign : sign_csr now serial r.csr_pem
        (pyOrNat req.validity_days r.validity_days)
        (pyOrStr req.cert_type r.cert_type) (pyOrStr req.device_type "Device")
        (if (chooseAdditionalIps req r).isEmpty then none
         else some (chooseAdditionalIps req r))
        req.additional_dns
        = Except.ok
          { subject := buildSubject c (pyOrStr req.device_type "Device")
            san := buildSan c
              (if (chooseAdditionalIps req r).isEmpty then none
               else some (chooseAdditionalIps req r))
              req.additional_dns
            key_usage := (keyUsageFor (pyOrStr req.cert_type r.cert_type)).1
            eku := (keyUsageFor (pyOrStr req.cert_type r.cert_type)).2
            serial := serial
            not_before := now
            not_after := now + pyOrNat req.validity_days r.validity_days
            pubkey := c.pubkey } := by
      rw [hcsr]
      simp [sign_csr, hsig]
    simp only [hpend, ne_eq, not_true_eq_false, if_false, hsign,
      create_certificate, update_request_status, add_audit_log]
    refine ⟨_, _,
      { subject := buildSubject c (pyOrStr req.device_type "Device")
        san := buildSan c
          (if (chooseAdditionalIps req r).isEmpty then none
           else some (chooseAdditionalIps req r))
          req.additional_dns
        key_usage := (keyUsageFor (pyOrStr req.cert_type r.cert_type)).1
        eku := (keyUsageFor (pyOrStr req.cert_type r.cert_type)).2
        serial := serial
        not_before := now
        not_after := now + pyOrNat req.validity_days r.validity_days
        pubkey := c.pubkey }, rfl, ?_, rfl⟩
    simp [List.mem_map]
  · intro ip a hsanips hdev hdevne hparse
    have hch2 : chooseAdditionalIps req r = [ip] := by
      rw [hchoose, hsanips]
      simp [pyStrTruthy, hdev, hdevne]
    rw [hch2]
    unfold buildSan
    simp [hparse]

/-- Witness for C10 on `reqPending` (no stored SAN IPs, device IP
`10.0.0.1`) with the default approve body (no extra IPs supplied): the
substituted extras are exactly the device IP and it lands in the issued
certificate's SAN. -/
theorem approve_san_fallback_witness :
    chooseAdditionalIps approveReq0 reqPending = ["10.0.0.1"]
    ∧ (∃ cert_id db2 cert,
        approve_request 2 100 1 approveReq0 "9.9.9.9" dbPending
            = (Except.ok (cert_id, 100), db2)
          ∧ cert ∈ db2.certificates.map CertRecord.cert
          ∧ cert.san = buildSan csr1
              (if (chooseAdditionalIps approveReq0 reqPending).isEmpty then none
               else some (chooseAdditionalIps approveReq0 reqPending))
              approveReq0.additional_dns)
    ∧ GeneralName.ipName ip1 ∈ buildSan csr1
        (if (chooseAdditionalIps approveReq0 reqPending).isEmpty then none
         else some (chooseAdditionalIps approveReq0 reqPending))
        approveReq0.additional_dns := by
  have h := approve_san_fallback 2 100 1 approveReq0 "9.9.9.9" dbPending reqPending csr1
    rfl rfl rfl rfl (Or.inl rfl)
  refine ⟨?_, h.2.1, h.2.2 "10.0.0.1" ip1 rfl rfl (by decide) (by rfl)⟩
  rw [h.1]
  rfl

end PkiServer
